import Mathlib

/-! # Render (Particles/Render.h): state, inline member functions and the Draw pipeline

A shallow embedding of `class Render` of the Multi-Adapter-Particles sample.

* The data members, the compile-time constants `NUM_FRAMES` and `m_NUM_BUFFERS`,
  the nested struct `ConstantBufferGS` and every member function whose body is
  written in the header are translated from `src/Particles/Render.h`.
* `Draw`, `MoveToNextFrame` and `CopySimulationResults` are only declared in the
  header; their bodies live in `Render.cpp`, which is not among the sources.
  They are modelled from the specification, and every definition obtained that
  way says so in its doc comment.

Machine integers are natural numbers; `UINT` arithmetic that can wrap is written
with an explicit modulus (`UINT` is 32 bits wide). The fence counters follow the
fence of the specification, whose value never decreases; a separate lemma
relates their steps to `UINT64` arithmetic.
-/

namespace Particles

/-! ## Machine types -/

/-- Number of values of a 32-bit `UINT`. -/
def UINT_RANGE : Nat := 4294967296

/-- Number of values of a 64-bit `UINT64`. -/
def UINT64_RANGE : Nat := 18446744073709551616

/-- Win32 `HANDLE` / `HWND`: a pointer-sized value, `0` is the null handle. -/
abbrev HANDLE := Nat

/-- A `ComPtr<T>` (or raw interface pointer): the address of the COM object, `0` is null. -/
abbrev ComPtr := Nat

/-- A C++ `float`, kept as its IEEE-754 bit pattern: the header only stores and
copies floats, it never computes with them. -/
structure FLOAT where
  bits : Nat
  deriving DecidableEq, Repr

/-- A C array `T name[n]`: exactly `n` elements. -/
abbrev CArray (α : Type) (n : Nat) := { l : List α // l.length = n }

/-- Element `i` of a C array, `none` when `i` is out of bounds. -/
def CArray.at? {α : Type} {n : Nat} (a : CArray α n) (i : Nat) : Option α :=
  a.val.get? i

/-- Overwrite element `i` of a C array (indices out of bounds leave it unchanged). -/
def CArray.store {α : Type} {n : Nat} (a : CArray α n) (i : Nat) (x : α) : CArray α n :=
  ⟨a.val.set i x, by rw [List.length_set]; exact a.property⟩

/-! ## Compile-time constants of `class Render` -/

/-- Header line 96: `static constexpr std::uint32_t NUM_FRAMES = 2;`. -/
def NUM_FRAMES : Nat := 2

/-- Header line 164: `static constexpr UINT m_NUM_BUFFERS = 2;`. -/
def m_NUM_BUFFERS : Nat := 2

/-! ## The object state

The data members of `class Render`, in declaration order. The members of struct
or class type (`m_viewport`, `m_scissorRect`, `m_vertexBufferView`, `m_camera`,
`m_windowDim`), whose types are declared outside this header, are read or
written by no member function defined in the header and are not part of the
state.
-/

/-- Data members of `class Render` (header lines 94-206). -/
structure Render where
  m_asyncMode : Bool
  m_numParticles : Nat
  m_pExtensionHelper : ComPtr
  m_hwnd : HANDLE
  m_adapter : ComPtr
  m_device : ComPtr
  m_commandQueue : ComPtr
  m_swapChain : ComPtr
  m_frameIndex : Nat
  m_swapChainEvent : HANDLE
  m_frameFenceValues : CArray Nat NUM_FRAMES
  m_renderFenceValue : Nat
  m_renderFence : ComPtr
  m_renderFenceEvent : HANDLE
  m_commandAllocators : CArray ComPtr NUM_FRAMES
  m_copyAllocators : CArray ComPtr NUM_FRAMES
  m_rtvDescriptorSize : Nat
  m_srvUavDescriptorSize : Nat
  m_renderTargets : CArray ComPtr NUM_FRAMES
  m_rtvHeap : ComPtr
  m_srvHeap : ComPtr
  m_commandList : ComPtr
  m_rootSignature : ComPtr
  m_pipelineState : ComPtr
  m_vertexBuffer : ComPtr
  m_vertexBufferUpload : ComPtr
  m_buffers : CArray ComPtr m_NUM_BUFFERS
  m_bufferSize : Nat
  m_currentBufferIndex : Nat
  m_constantBufferGS : ComPtr
  m_pConstantBufferGSData : ComPtr
  m_aspectRatio : FLOAT
  m_copyQueue : ComPtr
  m_copyList : ComPtr
  m_copyFence : ComPtr
  m_copyFenceValue : Nat
  m_sharedBuffers : CArray ComPtr m_NUM_BUFFERS
  m_sharedBufferIndex : Nat
  m_fullScreen : Bool
  m_windowedSupportsTearing : Bool
  m_sharedFenceHandle : HANDLE
  m_particleSize : FLOAT
  m_particleIntensity : FLOAT
  m_sharedComputeFence : ComPtr
  deriving DecidableEq

namespace Render

/-! ## Member functions defined in the header -/

/-- Header line 56: `void SetParticleSize(float in_particleSize) { m_particleSize = in_particleSize; }`. -/
def SetParticleSize (r : Render) (in_particleSize : FLOAT) : Render :=
  { r with m_particleSize := in_particleSize }

/-- Header line 57: `void SetParticleIntensity(float in_particleIntensity) { m_particleIntensity = in_particleIntensity; }`. -/
def SetParticleIntensity (r : Render) (in_particleIntensity : FLOAT) : Render :=
  { r with m_particleIntensity := in_particleIntensity }

/-- Header line 61: `ID3D12Device* GetDevice() const { return m_device.Get(); }`. -/
def GetDevice (r : Render) : ComPtr := r.m_device

/-- Header line 63: `static UINT GetNumFrames() { return NUM_FRAMES; }`; static, so
it takes no object. -/
def GetNumFrames : Nat := NUM_FRAMES

/-- Header line 73: `HANDLE GetSharedFenceHandle() const { return m_sharedFenceHandle; }`. -/
def GetSharedFenceHandle (r : Render) : HANDLE := r.m_sharedFenceHandle

/-- Header line 79: `ComPtr<ID3D12Fence> GetFence() const { return m_renderFence; }`. -/
def GetFence (r : Render) : ComPtr := r.m_renderFence

/-- Header line 80: `ComPtr<ID3D12Resource>* const GetBuffers() { return m_buffers; }`:
the array `m_buffers` (the caller receives the address of its first element). -/
def GetBuffers (r : Render) : CArray ComPtr m_NUM_BUFFERS := r.m_buffers

/-- Header line 81: `UINT GetBufferIndex() const { return m_currentBufferIndex; }`. -/
def GetBufferIndex (r : Render) : Nat := r.m_currentBufferIndex

/-- Header line 82: `void SetAsyncMode(bool in_enable) { m_asyncMode = in_enable; }`. -/
def SetAsyncMode (r : Render) (in_enable : Bool) : Render :=
  { r with m_asyncMode := in_enable }

end Render

/-- A call of one of the public member functions whose body is written in the
header, with its arguments. -/
inductive InlineCall where
  | SetParticleSize (in_particleSize : FLOAT)
  | SetParticleIntensity (in_particleIntensity : FLOAT)
  | GetDevice
  | GetNumFrames
  | GetSharedFenceHandle
  | GetFence
  | GetBuffers
  | GetBufferIndex
  | SetAsyncMode (in_enable : Bool)
  deriving DecidableEq

/-- What a call of an inline member function hands back to the caller. -/
inductive InlineReturn where
  | void
  | pointer (p : ComPtr)
  | handle (h : HANDLE)
  | uint (n : Nat)
  | buffers (a : CArray ComPtr m_NUM_BUFFERS)
  deriving DecidableEq

/-- Execute one inline member function on the object: the object afterwards and
the value returned. The setters run their bodies; the getters leave the object
as it is and return the member they read. -/
def InlineCall.run : InlineCall → Render → Render × InlineReturn
  | .SetParticleSize x, r => (r.SetParticleSize x, .void)
  | .SetParticleIntensity x, r => (r.SetParticleIntensity x, .void)
  | .GetDevice, r => (r, .pointer r.GetDevice)
  | .GetNumFrames, r => (r, .uint Render.GetNumFrames)
  | .GetSharedFenceHandle, r => (r, .handle r.GetSharedFenceHandle)
  | .GetFence, r => (r, .pointer r.GetFence)
  | .GetBuffers, r => (r, .buffers r.GetBuffers)
  | .GetBufferIndex, r => (r, .uint r.GetBufferIndex)
  | .SetAsyncMode b, r => (r.SetAsyncMode b, .void)

/-- Execute a sequence of inline member function calls, first call first. -/
def runInline (r : Render) (calls : List InlineCall) : Render :=
  calls.foldl (fun s c => (c.run s).1) r

/-! ## Layout of `ConstantBufferGS` -/

/-- The C++ types that occur in `struct ConstantBufferGS`. -/
inductive CType where
  | float
  | array (elem : CType) (count : Nat)
  deriving DecidableEq, Repr

/-- Value of `sizeof` in bytes (MSVC x64: `sizeof(float) = 4`; an array has no padding). -/
def CType.sizeof : CType → Nat
  | .float => 4
  | .array elem count => count * elem.sizeof

/-- Value of `alignof` in bytes: an array is aligned like its element. -/
def CType.alignof : CType → Nat
  | .float => 4
  | .array elem _ => elem.alignof

/-- Number of `float` scalars a type holds. -/
def CType.floats : CType → Nat
  | .float => 1
  | .array elem count => count * elem.floats

/-- `DirectX::XMFLOAT4X4` (DirectXMath): sixteen floats, `float m[4][4]`. -/
def XMFLOAT4X4 : CType := .array (.array .float 4) 4

/-- Round `offset` up to the next multiple of `align`. -/
def alignUp (offset align : Nat) : Nat :=
  (offset + align - 1) / align * align

/-- Offset just past the last member when the members are laid out in
declaration order, each at the next offset that satisfies its alignment. -/
def layoutEnd (fields : List (String × CType)) : Nat :=
  fields.foldl (fun offset f => alignUp offset f.2.alignof + f.2.sizeof) 0

/-- The alignment of a struct: the largest alignment among its members. -/
def structAlign (fields : List (String × CType)) : Nat :=
  fields.foldl (fun a f => max a f.2.alignof) 1

/-- Value of `sizeof` for a standard-layout struct: the end of the last member,
rounded up to the struct's alignment. -/
def structSizeof (fields : List (String × CType)) : Nat :=
  alignUp (layoutEnd fields) (structAlign fields)

/-- Header lines 149-158: the members of `struct ConstantBufferGS`, in
declaration order; the padding array is declared `float padding[32-1-1]`. -/
def ConstantBufferGS : List (String × CType) :=
  [ ("worldViewProjection", XMFLOAT4X4),
    ("inverseView", XMFLOAT4X4),
    ("particleSize", .float),
    ("particleIntensity", .float),
    ("padding", .array .float (32 - 1 - 1)) ]

/-- Constant buffers are 256-byte aligned in GPU memory (header line 155). -/
def CONSTANT_BUFFER_ALIGNMENT : Nat := 256

/-! ## The Draw pipeline

`Draw`, `CopySimulationResults` and `MoveToNextFrame` are declared in the header
(lines 53-54, 194 and 186); their bodies are not among the sources. The
definitions below follow the specification: section 4.3 (CopyPipeline), 4.2
(BufferExchange), 4.5 (FrameScheduler), 4.6 (the `Draw` sequence), 6 (the
constraints of `draw`) and 7 (precondition violations are reported to the
caller synchronously).

The specification does not say which value `Draw` leaves in its in-out
parameter, so the model takes the parameter as an input only. The index of the
cross-adapter pair (`m_sharedBufferIndex`) is not described either and is left
as it is.
-/

/-- Arguments of one `Draw` call (header lines 53-54); `inout_fenceValue` is the
value the parameter holds on entry, the compute fence value. -/
structure DrawArgs where
  in_numActiveParticles : Int
  in_pParticles : ComPtr
  inout_fenceValue : Nat
  in_numParticlesCopied : Int
  deriving DecidableEq, Repr

/-- Modelled from the spec: the constraints of `draw` (section 6), whose check
lives in the missing body of `Render::Draw`: `copiedParticleCount ≥ 0` and at
most the simulation buffer capacity, and `activeParticleCount` at most the
destination size. The capacity is `m_numParticles`. -/
def DrawArgs.meetsConstraints (capacity : Nat) (a : DrawArgs) : Prop :=
  0 ≤ a.in_numParticlesCopied ∧ a.in_numParticlesCopied ≤ (capacity : Int) ∧
    a.in_numActiveParticles ≤ (capacity : Int)

instance (capacity : Nat) (a : DrawArgs) : Decidable (a.meetsConstraints capacity) := by
  unfold DrawArgs.meetsConstraints
  exact inferInstance

/-- Modelled from the spec: how the missing body of `Render::Draw` reports a
broken constraint; the error category of section 7 that `draw` reports to its
caller. -/
inductive DrawError where
  | preconditionViolation
  deriving DecidableEq, Repr

/-- Modelled from the spec: what the missing body of `Render::Draw` returns
(section 4.6, step 6; section 8 speaks of the fence value associated with a
returned handle): the `HANDLE` handed to the caller, `0` when there is nothing
left to wait for, together with the render fence value that marks the render
work of the call. -/
structure WaitHandle where
  event : HANDLE
  fenceValue : Nat
  deriving DecidableEq, Repr

deriving instance DecidableEq for Except

/-- Modelled from the spec: the queue work the missing bodies of `Render::Draw`,
`Render::CopySimulationResults` and `Render::MoveToNextFrame` issue (sections
4.3, 4.5 and 4.6), and the wait the orchestration thread performs itself. -/
inductive QueueOp where
  | copyWait (computeFenceValue : Nat)
  | copyRegion (numParticles : Int)
  | copySignal (copyFenceValue : Nat)
  | beginFrame (slot : Nat)
  | renderSubmit (slot : Nat) (readBuffer : Nat) (numActiveParticles : Int)
  | drawUI (particles : ComPtr)
  | present
  | renderSignal (renderFenceValue : Nat)
  | hostWait (renderFenceValue : Nat)
  deriving DecidableEq, Repr

/-- Modelled from the spec: the next target of a fence as the missing bodies
choose it. Section 3: a fence owns a strictly increasing 64-bit counter whose
value never decreases, so the next target is `value + 1`. -/
def nextFenceValue (value : Nat) : Nat := value + 1

/-- Result of one `Draw` call: the object afterwards, what the caller receives,
and the queue work issued, in order. -/
structure DrawOutcome where
  state : Render
  result : Except DrawError WaitHandle
  ops : List QueueOp
  deriving DecidableEq

namespace Render

/-- Modelled from the spec: the body of `Render::CopySimulationResults` (declared
on header line 194) is missing. Section 4.3: (1) wait for the producer fence to
reach the value passed in by the caller, (2) record a copy of the given number
of elements, (3) submit it to the copy queue, (4) signal the copy fence, at the
next value of the copy fence counter. -/
def CopySimulationResults (r : Render) (in_fenceValue : Nat) (in_numActiveParticles : Int) :
    Render × List QueueOp :=
  let target := nextFenceValue r.m_copyFenceValue
  ({ r with m_copyFenceValue := target },
   [.copyWait in_fenceValue, .copyRegion in_numActiveParticles, .copySignal target])

/-- Modelled from the spec: `BufferExchange.advance()` (section 4.2), the step of
the missing body of `Render::Draw` that flips the ping-pong index:
`m_currentBufferIndex = 1 - m_currentBufferIndex` in `UINT` arithmetic. -/
def advance (r : Render) : Render :=
  { r with m_currentBufferIndex := (1 + UINT_RANGE - r.m_currentBufferIndex) % UINT_RANGE }

/-- Modelled from the spec: the body of `Render::MoveToNextFrame` (declared on
header lines 185-186, "returns a handle (or 0), so the calling function can
WaitOn") is missing. Section 4.5: `submit()` issues the fence signal that marks
the slot's render work complete; the value signalled is recorded as the slot's
fence target, the render fence counter moves to its next value, and the frame
index moves to the next slot in round-robin order. Section 6, `setAsyncMode`:
in async mode it returns immediately with the handle for later waiting;
otherwise the orchestrator waits for the render fence before returning and
nothing is left to wait for, so the handle is 0. -/
def MoveToNextFrame (r : Render) : Render × HANDLE × List QueueOp :=
  let signalled := r.m_renderFenceValue
  ({ r with
      m_frameFenceValues := r.m_frameFenceValues.store r.m_frameIndex signalled,
      m_renderFenceValue := nextFenceValue signalled,
      m_frameIndex := (r.m_frameIndex + 1) % NUM_FRAMES },
   if r.m_asyncMode then r.m_renderFenceEvent else 0,
   if r.m_asyncMode then [.renderSignal signalled]
   else [.renderSignal signalled, .hostWait signalled])

/-- Modelled from the spec: the body of `Render::Draw` (declared on header lines
53-54) is missing. Sections 6 and 7: a call that breaks the constraints of
`draw` reports a precondition violation and does nothing else. Section 4.6
otherwise: (1) copy, gated on the compute fence value; (2) advance the
ping-pong index; (3) begin the frame slot; (4) record the render commands that
read the active particles from the now-current read buffer, and the UI;
(5) submit and present; (6) return the wait handle of the render fence, which
stands for the render fence value signalled for this frame. -/
def Draw (r : Render) (a : DrawArgs) : DrawOutcome :=
  if a.meetsConstraints r.m_numParticles then
    let (r1, copyOps) := r.CopySimulationResults a.inout_fenceValue a.in_numParticlesCopied
    let r2 := r1.advance
    let frameOps : List QueueOp :=
      [.beginFrame r2.m_frameIndex,
       .renderSubmit r2.m_frameIndex r2.m_currentBufferIndex a.in_numActiveParticles,
       .drawUI a.in_pParticles,
       .present]
    let (r3, handle, signalOps) := r2.MoveToNextFrame
    { state := r3,
      result := .ok { event := handle, fenceValue := r2.m_renderFenceValue },
      ops := copyOps ++ frameOps ++ signalOps }
  else
    { state := r, result := .error .preconditionViolation, ops := [] }

/-- Run a sequence of `Draw` calls, first call first: the object afterwards. -/
def drawAll (r : Render) : List DrawArgs → Render
  | [] => r
  | a :: rest => drawAll (r.Draw a).state rest

/-- What the completed calls of a sequence of `Draw` calls return, in call
order; a call that reports a precondition violation returns none. -/
def drawHandles (r : Render) : List DrawArgs → List WaitHandle
  | [] => []
  | a :: rest =>
    match (r.Draw a).result with
    | .ok h => h :: drawHandles (r.Draw a).state rest
    | .error _ => drawHandles (r.Draw a).state rest

/-- How many calls of a sequence complete, that is, meet the constraints of
`draw`. The capacity `m_numParticles` is `const`, so it is the same for every
call. -/
def completedDraws (r : Render) (calls : List DrawArgs) : Nat :=
  (calls.filter (fun a => decide (a.meetsConstraints r.m_numParticles))).length

end Render

/-- A concrete object used to evaluate the definitions: capacity 1000 particles,
both indices 0, all fence counters 0, async mode on. -/
def sampleRender : Render where
  m_asyncMode := true
  m_numParticles := 1000
  m_pExtensionHelper := 0
  m_hwnd := 1
  m_adapter := 2
  m_device := 3
  m_commandQueue := 4
  m_swapChain := 5
  m_frameIndex := 0
  m_swapChainEvent := 6
  m_frameFenceValues := ⟨[0, 0], rfl⟩
  m_renderFenceValue := 0
  m_renderFence := 7
  m_renderFenceEvent := 8
  m_commandAllocators := ⟨[9, 10], rfl⟩
  m_copyAllocators := ⟨[11, 12], rfl⟩
  m_rtvDescriptorSize := 32
  m_srvUavDescriptorSize := 32
  m_renderTargets := ⟨[13, 14], rfl⟩
  m_rtvHeap := 15
  m_srvHeap := 16
  m_commandList := 17
  m_rootSignature := 18
  m_pipelineState := 19
  m_vertexBuffer := 20
  m_vertexBufferUpload := 21
  m_buffers := ⟨[22, 23], rfl⟩
  m_bufferSize := 16000
  m_currentBufferIndex := 0
  m_constantBufferGS := 24
  m_pConstantBufferGSData := 25
  m_aspectRatio := ⟨1068149419⟩
  m_copyQueue := 26
  m_copyList := 27
  m_copyFence := 28
  m_copyFenceValue := 0
  m_sharedBuffers := ⟨[29, 30], rfl⟩
  m_sharedBufferIndex := 0
  m_fullScreen := false
  m_windowedSupportsTearing := false
  m_sharedFenceHandle := 31
  m_particleSize := ⟨1065353216⟩
  m_particleIntensity := ⟨1056964608⟩
  m_sharedComputeFence := 33

/-- The sample object with async mode off. -/
def syncRender : Render := sampleRender.SetAsyncMode false

/-- The scenario call of the specification: 500 active and 500 copied particles. -/
def sampleCall (fenceValue : Nat) : DrawArgs :=
  { in_numActiveParticles := 500, in_pParticles := 40, inout_fenceValue := fenceValue,
    in_numParticlesCopied := 500 }

/-- The overrun call of the specification: 1500 copied particles. -/
def overrunCall : DrawArgs :=
  { in_numActiveParticles := 500, in_pParticles := 40, inout_fenceValue := 10,
    in_numParticlesCopied := 1500 }

/-! ## Basic facts about one `Draw` call -/

namespace Render

theorem Draw_of_not_meets (r : Render) (a : DrawArgs)
    (h : ¬ a.meetsConstraints r.m_numParticles) :
    r.Draw a = { state := r, result := .error .preconditionViolation, ops := [] } := by
  simp [Draw, h]

theorem Draw_bufferIndex_of_meets (r : Render) (a : DrawArgs)
    (h : a.meetsConstraints r.m_numParticles) :
    (r.Draw a).state.m_currentBufferIndex
      = (1 + UINT_RANGE - r.m_currentBufferIndex) % UINT_RANGE := by
  simp [Draw, h, CopySimulationResults, advance, MoveToNextFrame]

theorem Draw_frameIndex_of_meets (r : Render) (a : DrawArgs)
    (h : a.meetsConstraints r.m_numParticles) :
    (r.Draw a).state.m_frameIndex = (r.m_frameIndex + 1) % NUM_FRAMES := by
  simp [Draw, h, CopySimulationResults, advance, MoveToNextFrame]

theorem Draw_renderFenceValue_of_meets (r : Render) (a : DrawArgs)
    (h : a.meetsConstraints r.m_numParticles) :
    (r.Draw a).state.m_renderFenceValue = nextFenceValue r.m_renderFenceValue := by
  simp [Draw, h, CopySimulationResults, advance, MoveToNextFrame]

theorem Draw_copyFenceValue_of_meets (r : Render) (a : DrawArgs)
    (h : a.meetsConstraints r.m_numParticles) :
    (r.Draw a).state.m_copyFenceValue = nextFenceValue r.m_copyFenceValue := by
  simp [Draw, h, CopySimulationResults, advance, MoveToNextFrame]

theorem Draw_result_of_meets (r : Render) (a : DrawArgs)
    (h : a.meetsConstraints r.m_numParticles) :
    (r.Draw a).result
      = .ok { event := if r.m_asyncMode then r.m_renderFenceEvent else 0,
              fenceValue := r.m_renderFenceValue } := by
  simp [Draw, h, CopySimulationResults, advance, MoveToNextFrame]

theorem Draw_result_ok_iff (r : Render) (a : DrawArgs) :
    (∃ w, (r.Draw a).result = .ok w) ↔ a.meetsConstraints r.m_numParticles := by
  by_cases h : a.meetsConstraints r.m_numParticles
  · simp [Draw_result_of_meets r a h, h]
  · simp [Draw_of_not_meets r a h, h]

theorem Draw_numParticles (r : Render) (a : DrawArgs) :
    (r.Draw a).state.m_numParticles = r.m_numParticles := by
  by_cases h : a.meetsConstraints r.m_numParticles
  · simp [Draw, h, CopySimulationResults, advance, MoveToNextFrame]
  · rw [Draw_of_not_meets r a h]

theorem drawAll_numParticles (r : Render) (calls : List DrawArgs) :
    (r.drawAll calls).m_numParticles = r.m_numParticles := by
  induction calls generalizing r with
  | nil => rfl
  | cons a rest ih => rw [drawAll, ih, Draw_numParticles]

theorem completedDraws_congr (r s : Render) (calls : List DrawArgs)
    (h : s.m_numParticles = r.m_numParticles) :
    s.completedDraws calls = r.completedDraws calls := by
  simp [completedDraws, h]

theorem completedDraws_cons (r : Render) (a : DrawArgs) (rest : List DrawArgs) :
    r.completedDraws (a :: rest)
      = (if a.meetsConstraints r.m_numParticles then 1 else 0) + r.completedDraws rest := by
  by_cases h : a.meetsConstraints r.m_numParticles
  · simp [completedDraws, h, List.filter_cons]; omega
  · simp [completedDraws, h, List.filter_cons]

theorem completedDraws_le_length (r : Render) (calls : List DrawArgs) :
    r.completedDraws calls ≤ calls.length := by
  simp [completedDraws, List.length_filter_le]

theorem completedDraws_of_all (r : Render) (calls : List DrawArgs)
    (h : ∀ a ∈ calls, a.meetsConstraints r.m_numParticles) :
    r.completedDraws calls = calls.length := by
  unfold completedDraws
  rw [List.filter_eq_self.mpr]
  intro a ha
  simpa using h a ha

/-- The ping-pong index after a run: one step modulo two for every call that
meets the constraints. -/
theorem drawAll_bufferIndex (r : Render) (calls : List DrawArgs)
    (hindex : r.m_currentBufferIndex < m_NUM_BUFFERS) :
    (r.drawAll calls).m_currentBufferIndex
      = (r.m_currentBufferIndex + r.completedDraws calls) % m_NUM_BUFFERS := by
  induction calls generalizing r with
  | nil =>
    simp only [drawAll, completedDraws, List.filter_nil, List.length_nil, Nat.add_zero]
    exact (Nat.mod_eq_of_lt hindex).symm
  | cons a rest ih =>
    rw [drawAll, completedDraws_cons]
    by_cases h : a.meetsConstraints r.m_numParticles
    · have hstep := Draw_bufferIndex_of_meets r a h
      have hlt : (r.Draw a).state.m_currentBufferIndex < m_NUM_BUFFERS := by
        rw [hstep]; unfold m_NUM_BUFFERS UINT_RANGE at *; omega
      rw [ih _ hlt, completedDraws_congr r _ rest (Draw_numParticles r a), hstep, if_pos h]
      unfold m_NUM_BUFFERS UINT_RANGE at *; omega
    · rw [Draw_of_not_meets r a h, if_neg h, ih r hindex]
      simp

/-- The frame index after a run: one slot further for every call that meets
the constraints. -/
theorem drawAll_frameIndex (r : Render) (calls : List DrawArgs)
    (hslot : r.m_frameIndex < NUM_FRAMES) :
    (r.drawAll calls).m_frameIndex
      = (r.m_frameIndex + r.completedDraws calls) % NUM_FRAMES := by
  induction calls generalizing r with
  | nil =>
    simp only [drawAll, completedDraws, List.filter_nil, List.length_nil, Nat.add_zero]
    exact (Nat.mod_eq_of_lt hslot).symm
  | cons a rest ih =>
    rw [drawAll, completedDraws_cons]
    by_cases h : a.meetsConstraints r.m_numParticles
    · have hstep := Draw_frameIndex_of_meets r a h
      have hlt : (r.Draw a).state.m_frameIndex < NUM_FRAMES := by
        rw [hstep]; exact Nat.mod_lt _ (by decide)
      rw [ih _ hlt, completedDraws_congr r _ rest (Draw_numParticles r a), hstep, if_pos h]
      unfold NUM_FRAMES at *; omega
    · rw [Draw_of_not_meets r a h, if_neg h, ih r hslot]
      simp

/-- One step of a fence counter is the `UINT64` increment whenever the next
value is representable in 64 bits. -/
theorem nextFenceValue_eq_uint64 (value : Nat) (h : value + 1 < UINT64_RANGE) :
    nextFenceValue value = (value + 1) % UINT64_RANGE := by
  unfold nextFenceValue
  exact (Nat.mod_eq_of_lt h).symm

/-- The render fence counter after a run: one step per completed call. -/
theorem drawAll_renderFenceValue (r : Render) (calls : List DrawArgs) :
    (r.drawAll calls).m_renderFenceValue = r.m_renderFenceValue + r.completedDraws calls := by
  induction calls generalizing r with
  | nil => simp [drawAll, completedDraws]
  | cons a rest ih =>
    rw [drawAll, completedDraws_cons]
    by_cases h : a.meetsConstraints r.m_numParticles
    · have hstep := Draw_renderFenceValue_of_meets r a h
      unfold nextFenceValue at hstep
      rw [ih, completedDraws_congr r _ rest (Draw_numParticles r a), hstep, if_pos h]
      omega
    · rw [Draw_of_not_meets r a h, if_neg h, ih r]
      omega

/-- The copy fence counter after a run: one step per completed call. -/
theorem drawAll_copyFenceValue (r : Render) (calls : List DrawArgs) :
    (r.drawAll calls).m_copyFenceValue = r.m_copyFenceValue + r.completedDraws calls := by
  induction calls generalizing r with
  | nil => simp [drawAll, completedDraws]
  | cons a rest ih =>
    rw [drawAll, completedDraws_cons]
    by_cases h : a.meetsConstraints r.m_numParticles
    · have hstep := Draw_copyFenceValue_of_meets r a h
      unfold nextFenceValue at hstep
      rw [ih, completedDraws_congr r _ rest (Draw_numParticles r a), hstep, if_pos h]
      omega
    · rw [Draw_of_not_meets r a h, if_neg h, ih r]
      omega

/-- Both fence counters stay representable in 64 bits over every run that
leaves them room for one step per completed call; a run that starts from
counters at 0 does so as long as it is shorter than `2^64` calls. -/
theorem drawAll_fence_values_fit (r : Render) (calls : List DrawArgs) :
    (r.m_renderFenceValue + r.completedDraws calls < UINT64_RANGE →
      (r.drawAll calls).m_renderFenceValue < UINT64_RANGE) ∧
    (r.m_copyFenceValue + r.completedDraws calls < UINT64_RANGE →
      (r.drawAll calls).m_copyFenceValue < UINT64_RANGE) ∧
    (r.m_renderFenceValue = 0 → r.m_copyFenceValue = 0 → calls.length < UINT64_RANGE →
      (r.drawAll calls).m_renderFenceValue < UINT64_RANGE ∧
      (r.drawAll calls).m_copyFenceValue < UINT64_RANGE) := by
  have hr := drawAll_renderFenceValue r calls
  have hc := drawAll_copyFenceValue r calls
  have hle := completedDraws_le_length r calls
  refine ⟨fun h => by omega, fun h => by omega, fun h0 h1 hlen => ⟨by omega, by omega⟩⟩

end Render

/-! ## The ping-pong index under the inline member functions -/

theorem InlineCall.run_bufferIndex (c : InlineCall) (r : Render) :
    (c.run r).1.m_currentBufferIndex = r.m_currentBufferIndex := by
  cases c <;> rfl

theorem runInline_bufferIndex (r : Render) (calls : List InlineCall) :
    (runInline r calls).m_currentBufferIndex = r.m_currentBufferIndex := by
  unfold runInline
  induction calls generalizing r with
  | nil => rfl
  | cons c rest ih => rw [List.foldl_cons, ih, InlineCall.run_bufferIndex]

/-! ## The scenario of the specification -/

/-- Section 8 of the specification, on the sample object (capacity 1000, two
frame slots): three `Draw` calls with 500 active and 500 copied particles and
compute fence values 10, 11, 12 return three handles with increasing values,
leave the buffer index at 1, 0, 1 and use the frame slots 0, 1, 0. -/
theorem scenario_three_draws :
    (sampleRender.drawHandles [sampleCall 10, sampleCall 11, sampleCall 12]).map
        (fun w => w.fenceValue) = [0, 1, 2] ∧
    [(sampleRender.drawAll [sampleCall 10]).GetBufferIndex,
     (sampleRender.drawAll [sampleCall 10, sampleCall 11]).GetBufferIndex,
     (sampleRender.drawAll [sampleCall 10, sampleCall 11, sampleCall 12]).GetBufferIndex]
      = [1, 0, 1] ∧
    [sampleRender.m_frameIndex,
     (sampleRender.drawAll [sampleCall 10]).m_frameIndex,
     (sampleRender.drawAll [sampleCall 10, sampleCall 11]).m_frameIndex] = [0, 1, 0] ∧
    (sampleRender.Draw (sampleCall 10)).ops
      = [.copyWait 10, .copyRegion 500, .copySignal 1, .beginFrame 0,
         .renderSubmit 0 1 500, .drawUI 40, .present, .renderSignal 0] ∧
    (sampleRender.Draw (sampleCall 10)).result = .ok { event := 8, fenceValue := 0 } := by
  decide

/-- With async mode off (section 6, `setAsyncMode`) the same call waits for the
render fence before it returns and hands back the handle 0. -/
theorem scenario_sync_draw :
    (syncRender.Draw (sampleCall 10)).ops
      = [.copyWait 10, .copyRegion 500, .copySignal 1, .beginFrame 0,
         .renderSubmit 0 1 500, .drawUI 40, .present, .renderSignal 0, .hostWait 0] ∧
    (syncRender.Draw (sampleCall 10)).result = .ok { event := 0, fenceValue := 0 } ∧
    (syncRender.Draw (sampleCall 10)).state.SetAsyncMode true
      = (sampleRender.Draw (sampleCall 10)).state := by
  decide

/-! ## The claims -/

/-- C1: for every sequence of `Draw` calls on a `Render` object (ping-pong index
0 or 1), the index reported by `GetBufferIndex` alternates strictly. A `Draw`
call that completes, that is, returns its wait handle, as every call within the
constraints of `draw` does, finds the index at `i` and leaves it at `1 - i`,
which differs from `i` and is again 0 or 1. Over the sequence the index so
moves exactly one step modulo two per completed call, never skipped and never
doubled; when every call of the sequence is within the constraints, that is
one step per call. -/
theorem draw_flips_bufferIndex_per_completed_call
    (r : Render) (calls : List DrawArgs) (a : DrawArgs)
    (hindex : r.GetBufferIndex < m_NUM_BUFFERS) :
    (a.meetsConstraints r.m_numParticles →
      ∃ w, ((r.drawAll calls).Draw a).result = .ok w) ∧
    (∀ w, ((r.drawAll calls).Draw a).result = .ok w →
      ((r.drawAll calls).Draw a).state.GetBufferIndex = 1 - (r.drawAll calls).GetBufferIndex ∧
      ((r.drawAll calls).Draw a).state.GetBufferIndex ≠ (r.drawAll calls).GetBufferIndex ∧
      ((r.drawAll calls).Draw a).state.GetBufferIndex < m_NUM_BUFFERS) ∧
    (r.drawAll calls).GetBufferIndex
      = (r.GetBufferIndex + r.completedDraws calls) % m_NUM_BUFFERS ∧
    ((∀ c ∈ calls, c.meetsConstraints r.m_numParticles) →
      (r.drawAll calls).GetBufferIndex = (r.GetBufferIndex + calls.length) % m_NUM_BUFFERS) := by
  have hclosed := Render.drawAll_bufferIndex r calls hindex
  have hlt : (r.drawAll calls).m_currentBufferIndex < m_NUM_BUFFERS := by
    rw [hclosed]; exact Nat.mod_lt _ (by decide)
  have hcap := Render.drawAll_numParticles r calls
  refine ⟨?_, ?_, hclosed, ?_⟩
  · intro h
    exact (Render.Draw_result_ok_iff (r.drawAll calls) a).mpr (by rw [hcap]; exact h)
  · intro w hw
    have h := (Render.Draw_result_ok_iff (r.drawAll calls) a).mp ⟨w, hw⟩
    have hstep := Render.Draw_bufferIndex_of_meets (r.drawAll calls) a h
    unfold Render.GetBufferIndex
    rw [hstep]
    unfold m_NUM_BUFFERS UINT_RANGE at *
    omega
  · intro hall
    unfold Render.GetBufferIndex
    rw [hclosed, Render.completedDraws_of_all r calls hall]

/-- C1, witness: on the sample object, after one completed call, the next call
completes and flips the index from 1 to 0. -/
theorem draw_flips_bufferIndex_witness :
    sampleRender.GetBufferIndex < m_NUM_BUFFERS ∧
    (sampleRender.drawAll [sampleCall 10]).GetBufferIndex = 1 ∧
    ((sampleRender.drawAll [sampleCall 10]).Draw (sampleCall 11)).state.GetBufferIndex
      = 1 - (sampleRender.drawAll [sampleCall 10]).GetBufferIndex :=
  ⟨by decide, by decide,
   ((draw_flips_bufferIndex_per_completed_call sampleRender [sampleCall 10] (sampleCall 11)
      (by decide)).2.1 { event := 8, fenceValue := 1 } (by decide)).1⟩

/-- C2: with `in_numParticlesCopied` greater than the capacity `m_numParticles`,
`Draw` reports a precondition violation to the caller and performs no copy: it
issues no queue work, and the copy fence value, the buffer index and the frame
index (indeed the whole object) are the same after the call as before it. -/
theorem draw_overrun_reports_precondition_violation (r : Render) (a : DrawArgs)
    (hover : (r.m_numParticles : Int) < a.in_numParticlesCopied) :
    (r.Draw a).result = .error .preconditionViolation ∧
    (r.Draw a).ops = [] ∧
    (r.Draw a).state.m_copyFenceValue = r.m_copyFenceValue ∧
    (r.Draw a).state.GetBufferIndex = r.GetBufferIndex ∧
    (r.Draw a).state.m_frameIndex = r.m_frameIndex ∧
    (r.Draw a).state = r := by
  have h : ¬ a.meetsConstraints r.m_numParticles := by
    unfold DrawArgs.meetsConstraints
    omega
  rw [Render.Draw_of_not_meets r a h]
  exact ⟨rfl, rfl, rfl, rfl, rfl, rfl⟩

/-- C2, witness: the scenario of the specification, 1500 copied particles against
a capacity of 1000. -/
theorem draw_overrun_witness :
    (sampleRender.m_numParticles : Int) < overrunCall.in_numParticlesCopied ∧
    (sampleRender.Draw overrunCall).result = .error .preconditionViolation ∧
    (sampleRender.Draw overrunCall).ops = [] ∧
    (sampleRender.Draw overrunCall).state = sampleRender :=
  have h := draw_overrun_reports_precondition_violation sampleRender overrunCall (by decide)
  ⟨by decide, h.1, h.2.1, h.2.2.2.2.2⟩

/-- C3: the frame slot index `m_frameIndex` cycles through `0 .. NUM_FRAMES-1`
in strict round-robin order over successive `Draw` calls. It always stays below
`NUM_FRAMES`; a `Draw` call that completes (returns its wait handle) moves it
from slot `f` to slot `(f + 1) mod NUM_FRAMES`; after a run it is the start
slot plus the number of completed calls, modulo `NUM_FRAMES`, so starting at
slot 0 it is `n mod NUM_FRAMES` after the n-th of n calls within the
constraints of `draw` (period 2); and the slot does not depend on the value of
the ping-pong buffer index. -/
theorem draw_frameIndex_round_robin
    (r : Render) (calls : List DrawArgs) (a : DrawArgs) (bufferIndex : Nat)
    (hslot : r.m_frameIndex < NUM_FRAMES) :
    (r.drawAll calls).m_frameIndex < NUM_FRAMES ∧
    (∀ w, ((r.drawAll calls).Draw a).result = .ok w →
      ((r.drawAll calls).Draw a).state.m_frameIndex
        = ((r.drawAll calls).m_frameIndex + 1) % NUM_FRAMES) ∧
    (r.drawAll calls).m_frameIndex
      = (r.m_frameIndex + r.completedDraws calls) % NUM_FRAMES ∧
    (r.m_frameIndex = 0 → (∀ c ∈ calls, c.meetsConstraints r.m_numParticles) →
      (r.drawAll calls).m_frameIndex = calls.length % NUM_FRAMES) ∧
    (Render.drawAll { r with m_currentBufferIndex := bufferIndex } calls).m_frameIndex
      = (r.drawAll calls).m_frameIndex := by
  have hclosed := Render.drawAll_frameIndex r calls hslot
  refine ⟨?_, ?_, hclosed, ?_, ?_⟩
  · rw [hclosed]; exact Nat.mod_lt _ (by decide)
  · intro w hw
    exact Render.Draw_frameIndex_of_meets (r.drawAll calls) a
      ((Render.Draw_result_ok_iff (r.drawAll calls) a).mp ⟨w, hw⟩)
  · intro hzero hall
    rw [hclosed, hzero, Render.completedDraws_of_all r calls hall, Nat.zero_add]
  · rw [hclosed, Render.drawAll_frameIndex { r with m_currentBufferIndex := bufferIndex } calls hslot]
    rfl

/-- C3, witness: three scenario calls on the sample object leave the slot at
`3 mod 2 = 1`. -/
theorem draw_frameIndex_witness :
    sampleRender.m_frameIndex < NUM_FRAMES ∧
    (sampleRender.drawAll [sampleCall 10, sampleCall 11, sampleCall 12]).m_frameIndex
      = [sampleCall 10, sampleCall 11, sampleCall 12].length % NUM_FRAMES :=
  ⟨by decide,
   (draw_frameIndex_round_robin sampleRender [sampleCall 10, sampleCall 11, sampleCall 12]
      (sampleCall 13) 1 (by decide)).2.2.2.1 (by decide) (by decide)⟩

/-- C6: `SetAsyncMode(b)` assigns the flag: for every prior object and every `b`
the flag equals `b` afterwards, whatever it was before (also right after a
`SetAsyncMode` with any other argument), calling it twice gives the same object
as calling it once, and particle size, particle intensity, buffer index, frame
index and all fence values are unchanged. -/
theorem setAsyncMode_assigns_flag (r : Render) (b previous : Bool) :
    (r.SetAsyncMode b).m_asyncMode = b ∧
    ((r.SetAsyncMode previous).SetAsyncMode b).m_asyncMode = b ∧
    (r.SetAsyncMode b).SetAsyncMode b = r.SetAsyncMode b ∧
    (r.SetAsyncMode b).m_particleSize = r.m_particleSize ∧
    (r.SetAsyncMode b).m_particleIntensity = r.m_particleIntensity ∧
    (r.SetAsyncMode b).GetBufferIndex = r.GetBufferIndex ∧
    (r.SetAsyncMode b).m_frameIndex = r.m_frameIndex ∧
    (r.SetAsyncMode b).m_frameFenceValues = r.m_frameFenceValues ∧
    (r.SetAsyncMode b).m_renderFenceValue = r.m_renderFenceValue ∧
    (r.SetAsyncMode b).m_copyFenceValue = r.m_copyFenceValue :=
  ⟨rfl, rfl, rfl, rfl, rfl, rfl, rfl, rfl, rfl, rfl⟩

/-- C7: every public member function whose body is given in the header
(`SetParticleSize`, `SetParticleIntensity`, `SetAsyncMode`, `GetBufferIndex`,
`GetBuffers`, `GetFence`, `GetDevice`, `GetSharedFenceHandle`, `GetNumFrames`)
leaves `m_currentBufferIndex` unchanged, one call or any sequence of calls, and
`GetBufferIndex` returns exactly the current value of `m_currentBufferIndex`. -/
theorem inline_calls_leave_bufferIndex (r : Render) (c : InlineCall) (calls : List InlineCall) :
    (c.run r).1.m_currentBufferIndex = r.m_currentBufferIndex ∧
    (runInline r calls).m_currentBufferIndex = r.m_currentBufferIndex ∧
    (InlineCall.GetBufferIndex.run r).2 = .uint r.m_currentBufferIndex ∧
    r.GetBufferIndex = r.m_currentBufferIndex ∧
    (runInline r calls).GetBufferIndex = r.GetBufferIndex :=
  ⟨InlineCall.run_bufferIndex c r, runInline_bufferIndex r calls, rfl, rfl,
   runInline_bufferIndex r calls⟩

/-- C8: `GetNumFrames()` returns 2 in every state (it is static and equals
`NUM_FRAMES`), this is exactly the number of slots of every per-frame array of
the object (frame fence values, command allocators, copy allocators, render
targets), and every frame index `i < GetNumFrames()` is a valid index into each
of them. -/
theorem getNumFrames_counts_frame_slots (r : Render) (i : Nat)
    (hi : i < Render.GetNumFrames) :
    Render.GetNumFrames = 2 ∧
    Render.GetNumFrames = NUM_FRAMES ∧
    (InlineCall.GetNumFrames.run r).2 = .uint 2 ∧
    r.m_frameFenceValues.val.length = Render.GetNumFrames ∧
    r.m_commandAllocators.val.length = Render.GetNumFrames ∧
    r.m_copyAllocators.val.length = Render.GetNumFrames ∧
    r.m_renderTargets.val.length = Render.GetNumFrames ∧
    (r.m_frameFenceValues.at? i).isSome ∧
    (r.m_commandAllocators.at? i).isSome ∧
    (r.m_copyAllocators.at? i).isSome ∧
    (r.m_renderTargets.at? i).isSome := by
  have valid : ∀ {α : Type} (a : CArray α NUM_FRAMES), (a.at? i).isSome := by
    intro α a
    have hlt : i < a.val.length := by rw [a.property]; exact hi
    rw [CArray.at?, List.get?_eq_get hlt]
    rfl
  exact ⟨rfl, rfl, rfl, r.m_frameFenceValues.property, r.m_commandAllocators.property,
    r.m_copyAllocators.property, r.m_renderTargets.property, valid _, valid _, valid _, valid _⟩

/-- C8, witness: slot 1 of the sample object. -/
theorem getNumFrames_witness :
    1 < Render.GetNumFrames ∧ (sampleRender.m_renderTargets.at? 1).isSome :=
  ⟨by decide, (getNumFrames_counts_frame_slots sampleRender 1 (by decide)).2.2.2.2.2.2.2.2.2.2⟩

/-- C9: the ping-pong pair has exactly two buffers and the cross-adapter shared
pair has the same number (`m_NUM_BUFFERS = 2`); for every index `i` in {0, 1}
both `i` and `1 - i` (also as computed in `UINT` arithmetic) are valid indices
into `m_buffers` and into `m_sharedBuffers`, and `i` and `1 - i` are distinct,
so the writer role and the reader role never select the same buffer. -/
theorem pingpong_indices_valid_and_distinct (r : Render) (i : Nat)
    (hi : i < m_NUM_BUFFERS) :
    m_NUM_BUFFERS = 2 ∧
    r.m_buffers.val.length = 2 ∧
    r.m_sharedBuffers.val.length = r.m_buffers.val.length ∧
    (r.m_buffers.at? i).isSome ∧
    (r.m_buffers.at? (1 - i)).isSome ∧
    (r.m_sharedBuffers.at? i).isSome ∧
    (r.m_sharedBuffers.at? (1 - i)).isSome ∧
    (1 + UINT_RANGE - i) % UINT_RANGE = 1 - i ∧
    1 - i < m_NUM_BUFFERS ∧
    i ≠ 1 - i := by
  have valid : ∀ {α : Type} (a : CArray α m_NUM_BUFFERS) (k : Nat),
      k < m_NUM_BUFFERS → (a.at? k).isSome := by
    intro α a k hk
    have hlt : k < a.val.length := by rw [a.property]; exact hk
    rw [CArray.at?, List.get?_eq_get hlt]
    rfl
  have hother : 1 - i < m_NUM_BUFFERS := by unfold m_NUM_BUFFERS at *; omega
  refine ⟨rfl, r.m_buffers.property, ?_, valid _ i hi, valid _ _ hother, valid _ i hi,
    valid _ _ hother, ?_, hother, ?_⟩
  · rw [r.m_sharedBuffers.property, r.m_buffers.property]
  · unfold m_NUM_BUFFERS UINT_RANGE at *; omega
  · unfold m_NUM_BUFFERS at *; omega

/-- C9, witness: index 1 of the sample object; the other index is 0. -/
theorem pingpong_indices_witness :
    1 < m_NUM_BUFFERS ∧ (sampleRender.m_sharedBuffers.at? (1 - 1)).isSome ∧ 1 ≠ 1 - 1 :=
  have h := pingpong_indices_valid_and_distinct sampleRender 1 (by decide)
  ⟨by decide, h.2.2.2.2.2.2.1, h.2.2.2.2.2.2.2.2.2⟩

/-- C10: `struct ConstantBufferGS` is exactly 256 bytes, a multiple of the
256-byte constant-buffer alignment: two 4x4 float matrices (2 x 16 floats),
`particleSize`, `particleIntensity` and `padding[32-1-1]`, 30 floats, give 64
four-byte floats, 256 bytes. -/
theorem constantBufferGS_is_256_bytes :
    structSizeof ConstantBufferGS = 256 ∧
    structSizeof ConstantBufferGS % CONSTANT_BUFFER_ALIGNMENT = 0 ∧
    ConstantBufferGS.map (fun f => f.2.floats) = [16, 16, 1, 1, 30] ∧
    (ConstantBufferGS.map (fun f => f.2.floats)).sum = 64 ∧
    64 * CType.float.sizeof = structSizeof ConstantBufferGS := by
  decide

end Particles
